import Mathlib

/-!
Verification development for the wellness-tracker repository.

The Python source (src/main.py, src/plot_stats.py) is shallowly embedded
here.  Python scalar values are modelled by `PyVal`, Python floats by
`PFloat` (a rational or the NaN sentinel), and code that can raise an
exception returns a result type with an explicit exception constructor.
Dates are modelled as (year, month, day) triples of naturals; the
wall clock, where the source reads it, becomes an explicit parameter.
Model simplifications (documented at each definition): string parsing of
numeric literals covers signed decimal notation without exponents, and
binary floating point is replaced by exact rationals.
-/

attribute [local semireducible] Rat.add Rat.mul Rat.inv Rat.sub

namespace Wellness


/-- Python float model: an exact rational or the NaN sentinel.  Infinities
are not modelled; no value in this code base produces them. -/
inductive PFloat where
  | num (q : ℚ)
  | nan
deriving DecidableEq, Repr

/-- Python scalar values that occur in this code base: None, strings,
ints, floats (split into finite `float` and `nan`), bools, and
`datetime.time` values (hour, minute, second). -/
inductive PyVal where
  | none
  | str (s : String)
  | int (n : ℤ)
  | float (q : ℚ)
  | nan
  | bool (b : Bool)
  | time (h m s : ℕ)
deriving DecidableEq, Repr

/-- Result of a Python call that may raise: a value or an exception. -/
inductive PyResult (α : Type) where
  | val (a : α)
  | exn (msg : String)
deriving DecidableEq, Repr

/-- Python truthiness (`bool(v)`).  Note that NaN is truthy. -/
def pyBool : PyVal → Bool
  | .none => false
  | .str s => s ≠ ""
  | .int n => n ≠ 0
  | .float q => q ≠ 0
  | .nan => true
  | .bool b => b
  | .time _ _ _ => true

/-- Model of `pd.isna` on the scalars above: true for None and NaN. -/
def pdIsNa : PyVal → Bool
  | .none => true
  | .nan => true
  | _ => false

/-- Whitespace characters recognised by the string helpers. -/
def isSpaceChar (c : Char) : Bool := c = ' ' ∨ c = '\t' ∨ c = '\n' ∨ c = '\r'

/-- Kernel-reducible model of `str.strip()`. -/
def strTrim (s : String) : String :=
  String.mk (((s.data.dropWhile isSpaceChar).reverse.dropWhile isSpaceChar).reverse)

/-- Lower-case a single ASCII character. -/
def charLower (c : Char) : Char :=
  if 'A' ≤ c ∧ c ≤ 'Z' then Char.ofNat (c.toNat + 32) else c

/-- Kernel-reducible model of `str.lower()` for ASCII data. -/
def strLower (s : String) : String := String.mk (s.data.map charLower)

/-- Split a character list at every occurrence of `c`. -/
def splitListOn (c : Char) : List Char → List (List Char)
  | [] => [[]]
  | x :: xs =>
    let r := splitListOn c xs
    if x = c then [] :: r
    else
      match r with
      | [] => [[x]]
      | y :: ys => (x :: y) :: ys

/-- Kernel-reducible model of `s.split(c)`. -/
def strSplitOn (c : Char) (s : String) : List String :=
  (splitListOn c s.data).map String.mk

/-- Numeric value of a digit list (most significant first). -/
def digitsVal (l : List Char) : ℕ :=
  l.foldl (fun acc c => acc * 10 + (c.toNat - 48)) 0

/-- Parse a nonempty all-digit string to a natural. -/
def digitsToNat? (s : String) : Option ℕ :=
  if s.data ≠ [] ∧ s.data.all Char.isDigit then some (digitsVal s.data) else Option.none

/-- Strip an optional leading sign, returning the sign and the rest. -/
def splitSign (l : List Char) : ℤ × List Char :=
  match l with
  | '-' :: rest => (-1, rest)
  | '+' :: rest => (1, rest)
  | _ => (1, l)

/-- Model of `int(s)` on strings: optional surrounding whitespace,
optional sign, decimal digits. -/
def parseIntStr (s : String) : Option ℤ :=
  let (sg, rest) := splitSign (strTrim s).data
  (digitsToNat? (String.mk rest)).map (fun n => sg * (n : ℤ))

/-- Unsigned decimal: `digits`, `digits.digits`, `digits.` or `.digits`. -/
def parseDecimal (s : String) : Option ℚ :=
  match strSplitOn '.' s with
  | [a] => (digitsToNat? a).map (fun n => (n : ℚ))
  | [a, b] =>
    if a.data = [] ∧ b.data = [] then Option.none
    else if (a.data.all Char.isDigit) ∧ (b.data.all Char.isDigit) then
      some ((digitsVal a.data : ℚ) + (digitsVal b.data : ℚ) / (10 ^ b.data.length))
    else Option.none
  | _ => Option.none

/-- Model of `float(s)` on strings: optional whitespace and sign, decimal
notation or the literal "nan" (case-insensitive).  Exponents and
infinities are not modelled. -/
def parseFloatStr (s : String) : Option PFloat :=
  let t := strLower (strTrim s)
  let (sg, rest) := splitSign t.data
  let u := String.mk rest
  if u = "nan" then some PFloat.nan
  else (parseDecimal u).map (fun q => PFloat.num (sg * q))

/-- Truncation of a rational toward zero, the behaviour of `int(float)`. -/
def ratTrunc (q : ℚ) : ℤ := if 0 ≤ q then ⌊q⌋ else ⌈q⌉

/-- Model of `int(v)`: none on the inputs where Python raises
(TypeError for None and time, ValueError for NaN and bad strings). -/
def pyIntE : PyVal → Option ℤ
  | .none => Option.none
  | .str s => parseIntStr s
  | .int n => some n
  | .float q => some (ratTrunc q)
  | .nan => Option.none
  | .bool b => some (if b then 1 else 0)
  | .time _ _ _ => Option.none

/-- Model of `float(v)`: none on the inputs where Python raises. -/
def pyFloatE : PyVal → Option PFloat
  | .none => Option.none
  | .str s => parseFloatStr s
  | .int n => some (.num n)
  | .float q => some (.num q)
  | .nan => some .nan
  | .bool b => some (.num (if b then 1 else 0))
  | .time _ _ _ => Option.none

/-- Crude model of `str(v)`; only the string and None cases are exercised
by any claim, the numeric renderings are placeholders. -/
def pyStr : PyVal → String
  | .none => "None"
  | .str s => s
  | .int n => toString n
  | .float q => toString q
  | .nan => "nan"
  | .bool b => if b then "True" else "False"
  | .time h m s => s!"{h}:{m}:{s}"

/-- Field schema entry (config dict).  `Option.none` in a component means
the corresponding key is absent from the dict. -/
structure Field where
  type : String
  subtype : Option String
  default : Option PyVal
  min : Option PyVal
  options : Option (List PyVal)
deriving DecidableEq, Repr

/-- Field with only a type, every optional key absent. -/
def mkField (t : String) : Field := ⟨t, Option.none, Option.none, Option.none, Option.none⟩

/-- Model of `datetime.strptime(v, "%H:%M:%S")`: three colon-separated
groups of one or two digits, hour below 24, minute and second below 60. -/
def parseHMS (s : String) : Option (ℕ × ℕ × ℕ) :=
  match strSplitOn ':' s with
  | [hs, ms, ss] =>
    if hs.data ≠ [] ∧ hs.data.length ≤ 2 ∧ hs.data.all Char.isDigit ∧
       ms.data ≠ [] ∧ ms.data.length ≤ 2 ∧ ms.data.all Char.isDigit ∧
       ss.data ≠ [] ∧ ss.data.length ≤ 2 ∧ ss.data.all Char.isDigit then
      let h := digitsVal hs.data
      let m := digitsVal ms.data
      let sec := digitsVal ss.data
      if h ≤ 23 ∧ m ≤ 59 ∧ sec ≤ 59 then some (h, m, sec) else Option.none
    else Option.none
  | _ => Option.none

/-- Strings treated as empty by the number and slider branches. -/
def emptyLikeStrings : List String := ["", "none", "nan"]

/-- Whether `v` is None or an empty-like string (lines 127 and 154 of
src/main.py). -/
def isEmptyLike (v : PyVal) : Bool :=
  match v with
  | .none => true
  | .str s => emptyLikeStrings.contains (strLower (strTrim s))
  | _ => false

/-- Body of cast_initial_value after the stored/default choice of v
(src/main.py lines 124 to 174).  `now` is the wall clock read by the
time branch; exceptions escape as `PyResult.exn`. -/
def castV (field : Field) (v : PyVal) (now : ℕ × ℕ × ℕ) : PyResult PyVal :=
  let default := field.default.getD .none
  if field.type = "number" then
    let subtype := field.subtype.getD "float"
    if isEmptyLike v then .val .none
    else if subtype = "int" then
      match pyIntE v with
      | some n => .val (.int n)
      | Option.none => .val .none
    else
      match pyFloatE v with
      | some (.num q) => .val (.float q)
      | some .nan => .val .nan
      | Option.none => .val .none
  else if field.type = "checkbox" then
    if v = .none then .val (.bool (pyBool default))
    else if pdIsNa v then .val (.bool (pyBool default))
    else match v with
      | .str s => .val (.bool (["1", "true", "t", "yes", "y"].contains (strLower (strTrim s))))
      | _ => .val (.bool (pyBool v))
  else if field.type = "select" then
    let opts := field.options.getD []
    if opts.contains v then .val v
    else .val (opts.headD (.str ""))
  else if field.type = "slider" then
    let w := if isEmptyLike v then field.default.getD (field.min.getD (.int 0)) else v
    match pyIntE w with
    | some n => .val (.int n)
    | Option.none =>
      match pyIntE (field.default.getD (field.min.getD (.int 0))) with
      | some n => .val (.int n)
      | Option.none => .exn "ValueError: invalid literal for int"
  else if field.type = "text" ∨ field.type = "textarea" then
    .val (.str (if v = .none then "" else pyStr v))
  else if field.type = "time" then
    match v with
    | .str s =>
      if s ≠ "now" then
        match parseHMS s with
        | some (h, m, sec) => .val (.time h m sec)
        | Option.none => .val (.time now.1 now.2.1 now.2.2)
      else .val (.time now.1 now.2.1 now.2.2)
    | _ => .val (.time now.1 now.2.1 now.2.2)
  else .val v

/-- cast_initial_value (src/main.py lines 117 to 174): prefer the stored
value, fall back to the config default, then dispatch on the field type. -/
def cast_initial_value (field : Field) (stored : PyVal) (now : ℕ × ℕ × ℕ) : PyResult PyVal :=
  let v := if stored = .none then field.default.getD .none else stored
  castV field v now

/-- Addition on the Python float model: NaN absorbs. -/
def PFloat.add : PFloat → PFloat → PFloat
  | .num a, .num b => .num (a + b)
  | _, _ => .nan

/-- Subtraction on the Python float model: NaN absorbs. -/
def PFloat.sub : PFloat → PFloat → PFloat
  | .num a, .num b => .num (a - b)
  | _, _ => .nan

/-- Multiplication on the Python float model: NaN absorbs. -/
def PFloat.mul : PFloat → PFloat → PFloat
  | .num a, .num b => .num (a * b)
  | _, _ => .nan

/-- Division on the Python float model: NaN absorbs.  Division by zero
raises in Python; it is mapped to NaN here but never reached (the only
divisor in the embedded code is the literal 7). -/
def PFloat.div : PFloat → PFloat → PFloat
  | .num a, .num b => if b = 0 then .nan else .num (a / b)
  | _, _ => .nan

instance : Add PFloat := ⟨PFloat.add⟩

instance : Sub PFloat := ⟨PFloat.sub⟩

instance : Mul PFloat := ⟨PFloat.mul⟩

instance : Div PFloat := ⟨PFloat.div⟩

/-- Python strict greater-than on floats: false when either side is NaN. -/
def pfGt : PFloat → PFloat → Bool
  | .num a, .num b => decide (b < a)
  | _, _ => false

/-- Kernel-reducible floor of a rational. -/
def ratFloor (q : ℚ) : ℤ := q.num.fdiv q.den

/-- Model of round(x, 1): round half to even at one decimal place.  Exact
rationals replace binary floats here, so ties behave ideally. -/
def round1 : PFloat → PFloat
  | .nan => .nan
  | .num q =>
    let r := q * 10
    let f : ℤ := ratFloor r
    let frac := r - f
    let n : ℤ :=
      if frac < 1/2 then f
      else if 1/2 < frac then f + 1
      else if f % 2 = 0 then f else f + 1
    .num ((n : ℚ) / 10)

/-- A record entry: a dict (or table row) from field name to value. -/
abbrev Entry := List (String × PyVal)

/-- Model of entry[k]: first binding wins; `Option.none` models KeyError. -/
def entItem : Entry → String → Option PyVal
  | [], _ => Option.none
  | (k, v) :: rest, key => if k = key then some v else entItem rest key

/-- Model of entry.get(k, d). -/
def entGetD (e : Entry) (k : String) (d : PyVal) : PyVal := (entItem e k).getD d

/-- Model of float(entry[k]): fails on a missing key or unconvertible value. -/
def floatOfKey (e : Entry) (k : String) : Option PFloat := do
  let v ← entItem e k
  pyFloatE v

/-- Body of get_subjective_average (src/main.py lines 79 to 92) before the
exception handler: `Option.none` models an escaping exception. -/
def get_subjective_average_checked (e : Entry) : Option PFloat := do
  let motivation ← floatOfKey e "motivation"
  let clarity ← floatOfKey e "mental_clarity"
  let mood ← floatOfKey e "mood_content"
  let productivity ← floatOfKey e "productivity"
  let fatigue ← floatOfKey e "fatigue"
  let stress ← floatOfKey e "stress"
  let overstim ← floatOfKey e "overstimulation"
  let ten : PFloat := .num 10
  let score := (motivation + clarity + mood + productivity +
    (ten - fatigue) + (ten - stress) + (ten - overstim)) / PFloat.num 7
  pure (round1 score)

/-- get_subjective_average: any exception is caught and mapped to NaN. -/
def get_subjective_average (e : Entry) : PFloat :=
  (get_subjective_average_checked e).getD .nan

/-- Model of the Python idiom `x or 0`. -/
def orZero (v : PyVal) : PyVal := if pyBool v then v else .int 0

/-- Body of get_activity_score (src/plot_stats.py lines 266 to 308) before
the exception handler: `Option.none` models an escaping exception. -/
def get_activity_score_checked (e : Entry) : Option PFloat := do
  let score0 : PFloat := .num 0
  let score1 := if pyBool (entGetD e "gym" .none) then score0 + .num 3 else score0
  let run_km ← pyFloatE (orZero (entGetD e "run_km" (.int 0)))
  let score2 := score1 + run_km * .num 2
  let steps ← pyFloatE (orZero (entGetD e "walking_steps" (.int 0)))
  let score3 :=
    if pfGt steps (.num 5000) then score2 + .num 2
    else if pfGt steps (.num 2000) then score2 + .num 1
    else score2
  let score4 := if pyBool (entGetD e "morning_exercise" .none) then score3 + .num 2 else score3
  let score5 := if pyBool (entGetD e "meditation" .none) then score4 + .num 1 else score4
  let score6 := if pyBool (entGetD e "compulsive_behavior" .none) then score5 - .num 2 else score5
  let cannabis ← pyFloatE (orZero (entGetD e "cannabis" (.int 0)))
  let score7 := if pfGt cannabis (.num 0) then score6 - .num 1 else score6
  pure score7

/-- get_activity_score: any exception is caught and mapped to 0.0 (not
NaN). -/
def get_activity_score (e : Entry) : PFloat :=
  (get_activity_score_checked e).getD (.num 0)

/-- Rolling lookback in days used by plot_time_series (src/plot_stats.py
lines 55 to 62); an unknown period falls back to 30 days. -/
def lookbackDays (period : String) : ℤ :=
  if period = "week" then 7
  else if period = "month" then 30
  else if period = "year" then 365
  else 30

/-- Insert a dated row into an ascending-by-date list, after any rows with
an equal date. -/
def insertByDate (r : ℤ × PFloat) : List (ℤ × PFloat) → List (ℤ × PFloat)
  | [] => [r]
  | x :: xs => if r.1 < x.1 then r :: x :: xs else x :: insertByDate r xs

/-- Stable sort by date, the model of sort_values("date"). -/
def sortByDate (l : List (ℤ × PFloat)) : List (ℤ × PFloat) :=
  l.foldl (fun acc r => insertByDate r acc) []

/-- Model of pd.to_numeric(v, errors="coerce"): NaN on anything that does
not convert. -/
def toNumeric (v : PyVal) : PFloat :=
  match v with
  | .none => .nan
  | .nan => .nan
  | .int n => .num n
  | .float q => .num q
  | .bool b => .num (if b then 1 else 0)
  | .str s => (parseFloatStr s).getD .nan
  | .time _ _ _ => .nan

/-- First position holding a finite value, with that value. -/
def firstValid : List PFloat → Option (ℕ × ℚ)
  | [] => Option.none
  | .num q :: _ => some (0, q)
  | _ :: rest => (firstValid rest).map (fun p => (p.1 + 1, p.2))

/-- Last position strictly before i holding a finite value. -/
def prevValid (vals : List PFloat) : ℕ → Option (ℕ × ℚ)
  | 0 => Option.none
  | j + 1 =>
    match vals.get? j with
    | some (.num q) => some (j, q)
    | _ => prevValid vals j

/-- First position strictly after i holding a finite value. -/
def nextValid (vals : List PFloat) (i : ℕ) : Option (ℕ × ℚ) :=
  (firstValid (vals.drop (i + 1))).map (fun p => (i + 1 + p.1, p.2))

/-- Value at position i after pandas linear interpolation: interior gaps
are linearly interpolated, trailing gaps repeat the last finite value,
leading gaps stay NaN. -/
def interpolateAt (vals : List PFloat) (i : ℕ) : PFloat :=
  match vals.get? i with
  | some (.num q) => .num q
  | _ =>
    match prevValid vals i, nextValid vals i with
    | some (j, vj), some (k, vk) =>
      .num (vj + (vk - vj) * ((i - j : ℕ) : ℚ) / ((k - j : ℕ) : ℚ))
    | some (_, vj), Option.none => .num vj
    | Option.none, _ => .nan

/-- Model of Series.interpolate(method="linear") on a daily range index. -/
def interpolateLinear (vals : List PFloat) : List PFloat :=
  (List.range vals.length).map (interpolateAt vals)

/-- The complete daily date range from lo to hi, the model of
pd.date_range(start, end, freq="D") with dates as day numbers. -/
def completeDates (lo hi : ℤ) : List ℤ :=
  (List.range (hi - lo + 1).toNat).map (fun i => lo + i)

/-- Left join of the complete date range with the filtered rows (merge
how="left"): unmatched dates get NaN, duplicated dates duplicate rows. -/
def mergeLeft (dates : List ℤ) (rows : List (ℤ × PFloat)) : List (ℤ × PFloat) :=
  dates.flatMap (fun d =>
    match rows.filter (fun r => r.1 = d) with
    | [] => [(d, .nan)]
    | ms => ms.map (fun r => (d, r.2)))

/-- Data pipeline of plot_time_series (src/plot_stats.py lines 53 to 81):
filter rows to the rolling window ending at todayD, sort by date, coerce
the metric to numeric, build the complete daily range over the filtered
min and max date, left-join and linearly interpolate.  `Option.none`
models the "no data for the last period" annotation figure. -/
def plot_time_series_data (todayD : ℤ) (period : String) (rows : List (ℤ × PyVal)) :
    Option (List (ℤ × PFloat)) :=
  let start := todayD - lookbackDays period
  let kept := rows.filter (fun r => start ≤ r.1)
  let filtered := sortByDate (kept.map (fun r => (r.1, toNumeric r.2)))
  if filtered.isEmpty then Option.none
  else
    let lo := (filtered.head?.map Prod.fst).getD 0
    let hi := (filtered.getLast?.map Prod.fst).getD 0
    let merged := mergeLeft (completeDates lo hi) filtered
    let vals := interpolateLinear (merged.map Prod.snd)
    some ((merged.map Prod.fst).zip vals)

/-- Month-view Prev navigation on the (year, month) state (src/main.py
lines 525 to 530): month 1 wraps to 12 with a year decrement. -/
def prev_month (ym : ℤ × ℕ) : ℤ × ℕ :=
  if ym.2 = 1 then (ym.1 - 1, 12) else (ym.1, ym.2 - 1)

/-- Month-view Next navigation on the (year, month) state (src/main.py
lines 546 to 551): month 12 wraps to 1 with a year increment. -/
def next_month (ym : ℤ × ℕ) : ℤ × ℕ :=
  if ym.2 = 12 then (ym.1 + 1, 1) else (ym.1, ym.2 + 1)

/-- Gregorian leap year test. -/
def isLeap (y : ℕ) : Bool := (y % 4 = 0 ∧ y % 100 ≠ 0) ∨ y % 400 = 0

/-- Length of month m of year y, zero outside 1..12. -/
def monthLength (y m : ℕ) : ℕ :=
  match m with
  | 1 => 31
  | 2 => if isLeap y then 29 else 28
  | 3 => 31
  | 4 => 30
  | 5 => 31
  | 6 => 30
  | 7 => 31
  | 8 => 31
  | 9 => 30
  | 10 => 31
  | 11 => 30
  | 12 => 31
  | _ => 0

/-- Day number of a calendar date, as days since 1970-01-01 (the standard
days-from-civil algorithm).  It plays the role the date ordinal plays in
the Python datetime module. -/
def daysFromCivil (y m d : ℕ) : ℤ :=
  let yi : ℤ := if m ≤ 2 then (y : ℤ) - 1 else (y : ℤ)
  let era : ℤ := (if 0 ≤ yi then yi else yi - 399) / 400
  let yoe : ℤ := yi - era * 400
  let mp : ℤ := ((m : ℤ) + 9) % 12
  let doy : ℤ := (153 * mp + 2) / 5 + (d : ℤ) - 1
  let doe : ℤ := yoe * 365 + yoe / 4 - yoe / 100 + doy
  era * 146097 + doe - 719468

/-- Python date.weekday(): 0 = Monday ... 6 = Sunday (1970-01-01 was a
Thursday, weekday 3). -/
def pyWeekday (y m d : ℕ) : ℕ := ((daysFromCivil y m d + 3) % 7).toNat

/-- Day number of the Monday of ISO week 1 of year y (the CPython
isoweek1monday computation on day numbers). -/
def isoweek1monday (y : ℕ) : ℤ :=
  let firstday := daysFromCivil y 1 1
  let firstweekday := (firstday + 3) % 7
  let week1monday := firstday - firstweekday
  if 3 < firstweekday then week1monday + 7 else week1monday

/-- Python date.isocalendar()[1]: the ISO 8601 week number (the CPython
algorithm: floor-divide the offset from the week-1 Monday by 7, deferring
to the last week of the previous year or week 1 of the next year at the
boundaries). -/
def isoWeekNum (y m d : ℕ) : ℤ :=
  let today := daysFromCivil y m d
  let week := (today - isoweek1monday y).fdiv 7
  if week < 0 then (today - isoweek1monday (y - 1)).fdiv 7 + 1
  else if 52 ≤ week ∧ isoweek1monday (y + 1) ≤ today then 1
  else week + 1

/-- One cell of a calendar figure: grid position, date, activity flag. -/
structure CalCell where
  x : ℤ
  y : ℤ
  date : ℕ × ℕ × ℕ
  active : Bool
deriving DecidableEq, Repr

/-- Dates of year y in calendar order as (month, day) pairs: the model of
the loop from date(y, 1, 1) to date(y, 12, 31) in one-day steps. -/
def yearDates (y : ℕ) : List (ℕ × ℕ) :=
  (List.range 12).flatMap (fun mi =>
    (List.range (monthLength y (mi + 1))).map (fun di => (mi + 1, di + 1)))

/-- Model of _create_year_calendar (src/plot_stats.py lines 526 to 561):
one cell per day of the year, at x = the ISO week number of the date and
y = its weekday, coloured by the activity lookup. -/
def create_year_calendar (ex : ℕ × ℕ × ℕ → Bool) (y : ℕ) : List CalCell :=
  (yearDates y).map (fun md =>
    ⟨isoWeekNum y md.1 md.2, (pyWeekday y md.1 md.2 : ℤ), (y, md.1, md.2),
      ex (y, md.1, md.2)⟩)

/-- Calendar successor of a date. -/
def nextDay (d : ℕ × ℕ × ℕ) : ℕ × ℕ × ℕ :=
  if d.2.2 < monthLength d.1 d.2.1 then (d.1, d.2.1, d.2.2 + 1)
  else if d.2.1 < 12 then (d.1, d.2.1 + 1, 1)
  else (d.1 + 1, 1, 1)

/-- Calendar predecessor of a date. -/
def prevDay (d : ℕ × ℕ × ℕ) : ℕ × ℕ × ℕ :=
  if 1 < d.2.2 then (d.1, d.2.1, d.2.2 - 1)
  else if 1 < d.2.1 then (d.1, d.2.1 - 1, monthLength d.1 (d.2.1 - 1))
  else (d.1 - 1, 12, 31)

/-- Monday of the week containing d (today minus its weekday). -/
def mondayOf (d : ℕ × ℕ × ℕ) : ℕ × ℕ × ℕ := prevDay^[pyWeekday d.1 d.2.1 d.2.2] d

/-- Model of _create_week_calendar (src/plot_stats.py lines 446 to 523):
exactly 7 cells, columns 0..6 = Mon..Sun from the given start date. -/
def create_week_calendar (ex : ℕ × ℕ × ℕ → Bool) (start : ℕ × ℕ × ℕ) : List CalCell :=
  (List.range 7).map (fun i =>
    let d := nextDay^[i] start
    ⟨(i : ℤ), 0, d, ex d⟩)

/-- Model of _create_month_calendar (src/plot_stats.py lines 358 to 443):
the cal.monthcalendar layout with zero padding skipped — day n of the
month sits at column (f + n - 1) % 7 and row -((f + n - 1) / 7), where f
is the weekday of the first of the month. -/
def create_month_calendar (ex : ℕ × ℕ × ℕ → Bool) (y m : ℕ) : List CalCell :=
  let f := pyWeekday y m 1
  (List.range (monthLength y m)).map (fun i =>
    ⟨((f + i) % 7 : ℕ), -(((f + i) / 7 : ℕ) : ℤ), (y, m, i + 1), ex (y, m, i + 1)⟩)

/-- A pandas DataFrame model: the column list and the rows. -/
structure PTable where
  cols : List String
  rows : List Entry
deriving DecidableEq, Repr

/-- Parse a YYYY-MM-DD date value; `Option.none` models NaT under
pd.to_datetime(errors="coerce") for the formats this app stores. -/
def parseDatePy (v : PyVal) : Option (ℕ × ℕ × ℕ) :=
  match v with
  | .str s =>
    match strSplitOn '-' s with
    | [ys, ms, ds] =>
      match digitsToNat? ys, digitsToNat? ms, digitsToNat? ds with
      | some y, some m, some d =>
        if 1 ≤ m ∧ m ≤ 12 ∧ 1 ≤ d ∧ d ≤ monthLength y m then some (y, m, d)
        else Option.none
      | _, _, _ => Option.none
    | _ => Option.none
  | _ => Option.none

/-- Per-value model of the exercise-column boolean conversion
(src/plot_stats.py lines 340 to 345): strings via the literal list,
other values via numeric coercion with NaN filled as False.  The source
picks the branch per column dtype; on homogeneous columns this per-value
choice coincides with it. -/
def toExerciseBool (v : PyVal) : Bool :=
  match v with
  | .str s => ["true", "1", "yes"].contains (strLower s)
  | .bool b => b
  | .int n => n ≠ 0
  | .float q => q ≠ 0
  | _ => false

/-- Lookup in the date-to-exercise dict built by dict(zip(..)): a later
binding for the same date overwrites an earlier one. -/
def lookupLastB (l : List ((ℕ × ℕ × ℕ) × Bool)) (k : ℕ × ℕ × ℕ) : Option Bool :=
  l.reverse.lookup k

/-- Model of plot_exercise_calendar (src/plot_stats.py lines 310 to 355):
data preparation — which raises KeyError when the date column or the
requested column is missing — then the period dispatch; a period outside
week, month, year falls through every branch and returns Python None.
The builder defaults (current year, month, Monday of the current week)
are resolved here from the explicit `today` parameter. -/
def plot_exercise_calendar (df : PTable) (column : String) (period : String)
    (year month : Option ℕ) (weekStart : Option (ℕ × ℕ × ℕ))
    (today : ℕ × ℕ × ℕ) : PyResult (Option (List CalCell)) :=
  if ¬ df.cols.contains "date" then .exn "KeyError: date"
  else if ¬ df.cols.contains column then .exn ("KeyError: " ++ column)
  else
    let pairs := df.rows.filterMap (fun r =>
      (parseDatePy (entGetD r "date" .none)).map
        (fun d => (d, toExerciseBool (entGetD r column .none))))
    let ex : ℕ × ℕ × ℕ → Bool := fun d => (lookupLastB pairs d).getD false
    if period = "month" then
      .val (some (create_month_calendar ex (year.getD today.1) (month.getD today.2.1)))
    else if period = "week" then
      .val (some (create_week_calendar ex (weekStart.getD (mondayOf today))))
    else if period = "year" then
      .val (some (create_year_calendar ex (year.getD today.1)))
    else .val Option.none

/-- A stored record row: a dict from column name to value; "date" and
"timestamp" are ordinary columns, exactly as in the DataFrame. -/
abbrev Row := List (String × PyVal)

/-- The date cell of a row; a missing date column reads as None. -/
def rowDate (r : Row) : PyVal := entGetD r "date" .none

/-- Model of dict update / DataFrame cell assignment df.loc[idx, k] = v:
overwrite the binding of k when the column exists, else append it. -/
def setField (r : Row) (k : String) (v : PyVal) : Row :=
  if r.any (fun p => p.1 = k) then
    r.map (fun p => if p.1 = k then (k, v) else p)
  else r ++ [(k, v)]

/-- Apply the updates dict left to right. -/
def applyUpdates (r : Row) (ups : List (String × PyVal)) : Row :=
  ups.foldl (fun acc kv => setField acc kv.1 kv.2) r

/-- The row produced for an existing date: every update key is assigned,
then the timestamp column is overwritten (src/main.py lines 57 to 60).
The parsed entry_date timestamp is modelled by the day string itself. -/
def updatedRow (r : Row) (day : String) (ups : List (String × PyVal)) : Row :=
  setField (applyUpdates r ups) "timestamp" (.str day)

/-- Update the first row whose date equals day (df[mask].index[0]). -/
def updateFirst (day : String) (ups : List (String × PyVal)) : List Row → List Row
  | [] => []
  | r :: rest =>
    if rowDate r = .str day then updatedRow r day ups :: rest
    else r :: updateFirst day ups rest

/-- upsert_for_date (src/main.py lines 45 to 62): append a fresh row when
no row carries the date, else update the first row with that date in
place. -/
def upsert_for_date (table : List Row) (day : String) (ups : List (String × PyVal)) :
    List Row :=
  if table.any (fun r => rowDate r = .str day) then updateFirst day ups table
  else table ++ [applyUpdates [("date", .str day), ("timestamp", .str day)] ups]

/-- Number of rows carrying the given date. -/
def countDate (table : List Row) (d : String) : ℕ :=
  (table.filter (fun r => rowDate r = .str d)).length

/-- Helper: every branch of `castV` other than the time branch ignores the
wall clock. -/
theorem castV_now_indep (f : Field) (v : PyVal) (n₁ n₂ : ℕ × ℕ × ℕ)
    (h : f.type ≠ "time") : castV f v n₁ = castV f v n₂ := by
  unfold castV
  split_ifs <;> rfl

/-- Helper: the time branch ignores the wall clock when the stored string
is not "now" and parses as HH:MM:SS. -/
theorem castV_time_parse (f : Field) (s : String) (n₁ n₂ : ℕ × ℕ × ℕ)
    (hs : s ≠ "now") (hp : (parseHMS s).isSome) :
    castV f (.str s) n₁ = castV f (.str s) n₂ := by
  by_cases hty : f.type = "time"
  · obtain ⟨t, ht⟩ := Option.isSome_iff_exists.mp hp
    unfold castV
    rw [hty]
    simp only [reduceIte, String.reduceEq, reduceCtorEq, ht, false_or, ne_eq, hs,
      not_false_eq_true, if_true]
  · exact castV_now_indep f (.str s) n₁ n₂ hty

/-- Choosing the default happens before the type dispatch, so coercing a
missing stored value equals coercing the default itself. -/
theorem cast_none_eq_default (f : Field) (n : ℕ × ℕ × ℕ) :
    cast_initial_value f .none n = cast_initial_value f (f.default.getD .none) n := by
  unfold cast_initial_value
  cases hd : f.default with
  | none => rfl
  | some d => cases d <;> rfl

/-- C1 (amended): cast_initial_value is deterministic and wall-clock
independent for every non-time field, and for time fields whenever the
stored value is a string other than "now" that parses as HH:MM:SS; only
the time-branch fallback reads the wall clock. -/
theorem cast_initial_value_pure (f : Field) (stored : PyVal) (n₁ n₂ : ℕ × ℕ × ℕ) :
    (f.type ≠ "time" → cast_initial_value f stored n₁ = cast_initial_value f stored n₂) ∧
    (∀ s : String, stored = PyVal.str s → s ≠ "now" → (parseHMS s).isSome →
      cast_initial_value f stored n₁ = cast_initial_value f stored n₂) := by
  constructor
  · intro h
    unfold cast_initial_value
    exact castV_now_indep f _ n₁ n₂ h
  · intro s hst hs hp
    subst hst
    unfold cast_initial_value
    exact castV_time_parse f s n₁ n₂ hs hp

/-- C1 counterexample: for a time field with no stored value, the result
is the wall-clock time, so two evaluations at different wall-clock times
disagree — cast_initial_value is not independent of wall-clock time. -/
theorem cast_initial_value_time_cex :
    cast_initial_value (mkField "time") PyVal.none (0, 0, 0) ≠
      cast_initial_value (mkField "time") PyVal.none (12, 0, 0) := by decide

/-- Witness for cast_initial_value_pure at concrete inputs. -/
theorem cast_initial_value_pure_witness :
    cast_initial_value (mkField "checkbox") (PyVal.str "yes") (0, 0, 0) =
      cast_initial_value (mkField "checkbox") (PyVal.str "yes") (7, 8, 9) ∧
    cast_initial_value (mkField "time") (PyVal.str "12:30:05") (0, 0, 0) =
      cast_initial_value (mkField "time") (PyVal.str "12:30:05") (7, 8, 9) :=
  ⟨(cast_initial_value_pure _ _ _ _).1 (by decide),
   (cast_initial_value_pure _ _ _ _).2 "12:30:05" rfl (by decide) (by decide)⟩

/-- C2 (amended): for a checkbox field, a stored string in
{"1","true","t","yes","y"} (case-insensitive) coerces to true; a stored
NaN yields the schema default cast to boolean; a missing (None) stored
value yields the checkbox coercion of the default itself.  A stored empty
string, however, coerces to false, not to the default. -/
theorem checkbox_cast (f : Field) (n : ℕ × ℕ × ℕ) (hf : f.type = "checkbox") :
    (∀ s : String, ["1", "true", "t", "yes", "y"].contains (strLower (strTrim s)) = true →
        cast_initial_value f (.str s) n = .val (.bool true)) ∧
    (cast_initial_value f .nan n = .val (.bool (pyBool (f.default.getD .none)))) ∧
    (cast_initial_value f .none n = cast_initial_value f (f.default.getD .none) n) := by
  refine ⟨?_, ?_, cast_none_eq_default f n⟩
  · intro s hmem
    unfold cast_initial_value castV
    rw [hf]
    simp only [reduceIte, String.reduceEq, reduceCtorEq, hmem, pdIsNa]
  · unfold cast_initial_value castV
    rw [hf]
    simp only [reduceIte, String.reduceEq, reduceCtorEq, pdIsNa]

/-- C2 counterexample: for a checkbox field with default true, a stored
empty string coerces to false, while the schema default cast to boolean
is true — the empty-string clause of the claim fails. -/
theorem checkbox_empty_string_cex :
    cast_initial_value ⟨"checkbox", Option.none, some (PyVal.bool true), Option.none, Option.none⟩
        (PyVal.str "") (0, 0, 0) = .val (.bool false) ∧
    pyBool (PyVal.bool true) = true := by decide

/-- Witness for checkbox_cast at a concrete field. -/
theorem checkbox_cast_witness :
    cast_initial_value ⟨"checkbox", Option.none, some (PyVal.bool true), Option.none, Option.none⟩
        (PyVal.str "Yes") (0, 0, 0) = .val (.bool true) ∧
    cast_initial_value ⟨"checkbox", Option.none, some (PyVal.bool true), Option.none, Option.none⟩
        PyVal.nan (0, 0, 0) =
      .val (.bool (pyBool ((Field.mk "checkbox" Option.none (some (PyVal.bool true))
        Option.none Option.none).default.getD .none))) :=
  ⟨(checkbox_cast _ _ rfl).1 "Yes" (by decide), (checkbox_cast _ _ rfl).2.1⟩

/-- C4 (code bug): the final slider fallback int(field.get("default",
field.get("min", 0))) at src/main.py line 161 sits outside the try block,
so a non-numeric default together with a non-numeric stored value raises
ValueError instead of degrading to an integer. -/
theorem slider_fallback_raises :
    cast_initial_value ⟨"slider", Option.none, some (PyVal.str "abc"), Option.none, Option.none⟩
        (PyVal.str "xyz") (0, 0, 0) = .exn "ValueError: invalid literal for int" := by decide

/-- C3 counterexample: an entry whose run_km value raises inside
get_activity_score is caught, but the function returns 0.0, not the NaN
sentinel the claim promises. -/
theorem get_activity_score_exn_cex :
    get_activity_score_checked [("run_km", PyVal.str "abc")] = Option.none ∧
    get_activity_score [("run_km", PyVal.str "abc")] = PFloat.num 0 ∧
    PFloat.num 0 ≠ PFloat.nan := by decide

/-- C3 (amended): every exception escaping the body of
get_subjective_average is caught and mapped to NaN, and every exception
escaping the body of get_activity_score is caught and mapped to 0.0. -/
theorem score_exceptions_mapped (e : Entry) :
    (get_subjective_average_checked e = Option.none → get_subjective_average e = PFloat.nan) ∧
    (get_activity_score_checked e = Option.none → get_activity_score e = PFloat.num 0) := by
  constructor <;> intro h <;>
    simp [get_subjective_average, get_activity_score, h]

/-- Witness for score_exceptions_mapped at a concrete failing entry. -/
theorem score_exceptions_mapped_witness :
    get_subjective_average [("run_km", PyVal.str "abc")] = PFloat.nan ∧
    get_activity_score [("run_km", PyVal.str "abc")] = PFloat.num 0 :=
  ⟨(score_exceptions_mapped _).1 (by decide), (score_exceptions_mapped _).2 (by decide)⟩

/-- C9: the composite activity score of the sample entry (gym true,
run_km 5, walking_steps 6000, meditation true, compulsive_behavior false,
cannabis 0, morning_exercise absent) is 3 + 10 + 2 + 1 = 16. -/
theorem get_activity_score_sample :
    get_activity_score [("gym", PyVal.bool true), ("run_km", PyVal.int 5),
      ("walking_steps", PyVal.int 6000), ("meditation", PyVal.bool true),
      ("compulsive_behavior", PyVal.bool false), ("cannabis", PyVal.int 0)] =
      PFloat.num 16 := by decide

/-- C5: with in-window samples only on day 1 (value 10) and day 5 (value
20), the completed daily series spans exactly days 1 to 5 and assigns day
3 the linearly interpolated value 15; no value is produced outside the
observed min-max range. -/
theorem plot_time_series_interpolation :
    plot_time_series_data 5 "week" [(1, PyVal.int 10), (5, PyVal.int 20)] =
      some [(1, .num 10), (2, .num (25/2)), (3, .num 15), (4, .num (35/2)), (5, .num 20)] := by
  decide

/-- C6: month navigation moves by exactly one month per step, wrapping
(y, 1) backward to (y-1, 12) and (y, 12) forward to (y+1, 1), leaving the
year unchanged otherwise; in particular (2024, 1) steps back to
(2023, 12) and (2024, 12) steps forward to (2025, 1). -/
theorem month_navigation (y : ℤ) (m : ℕ) (h1 : 1 ≤ m) (h2 : m ≤ 12) :
    prev_month (y, 1) = (y - 1, 12) ∧
    next_month (y, 12) = (y + 1, 1) ∧
    (m ≠ 1 → prev_month (y, m) = (y, m - 1)) ∧
    (m ≠ 12 → next_month (y, m) = (y, m + 1)) ∧
    prev_month (2024, 1) = (2023, 12) ∧
    next_month (2024, 12) = (2025, 1) := by
  refine ⟨rfl, rfl, ?_, ?_, by decide, by decide⟩
  · intro hm
    simp [prev_month, hm]
  · intro hm
    simp [next_month, hm]

/-- Witness for month_navigation at (2024, 5). -/
theorem month_navigation_witness :
    prev_month (2024, 5) = (2024, 4) ∧ next_month (2024, 5) = (2024, 6) :=
  ⟨(month_navigation 2024 5 (by decide) (by decide)).2.2.1 (by decide),
   (month_navigation 2024 5 (by decide) (by decide)).2.2.2.1 (by decide)⟩

/-- C10 counterexample: on a table without a date column (here the empty
table), plot_exercise_calendar raises KeyError during data preparation
even when the period is unknown — it does not return None for every
input table. -/
theorem plot_exercise_calendar_empty_cex :
    plot_exercise_calendar ⟨[], []⟩ "gym" "decade" Option.none Option.none Option.none
        (2024, 1, 1) = .exn "KeyError: date" ∧
    PyResult.exn (α := Option (List CalCell)) "KeyError: date" ≠ .val Option.none := by
  decide

/-- C10 (amended): when the table does have the date column and the
requested column, a period outside week, month, year yields Python None —
no figure, no annotation, no exception. -/
theorem plot_exercise_calendar_unknown_period (df : PTable) (column period : String)
    (year month : Option ℕ) (weekStart : Option (ℕ × ℕ × ℕ)) (today : ℕ × ℕ × ℕ)
    (hd : "date" ∈ df.cols) (hc : column ∈ df.cols)
    (h1 : period ≠ "month") (h2 : period ≠ "week") (h3 : period ≠ "year") :
    plot_exercise_calendar df column period year month weekStart today = .val Option.none := by
  unfold plot_exercise_calendar
  simp [hd, hc, h1, h2, h3]

/-- Witness for plot_exercise_calendar_unknown_period at a concrete
table and period. -/
theorem plot_exercise_calendar_unknown_period_witness :
    plot_exercise_calendar ⟨["date", "gym"], []⟩ "gym" "decade" Option.none Option.none
      Option.none (2024, 1, 1) = .val Option.none :=
  plot_exercise_calendar_unknown_period _ _ _ _ _ _ _ (by decide) (by decide)
    (by decide) (by decide) (by decide)

/-- A leap year iterates exactly 366 dates. -/
theorem yearDates_length (y : ℕ) (hy : isLeap y = true) : (yearDates y).length = 366 := by
  unfold yearDates
  rw [show List.range 12 = [0, 1, 2, 3, 4, 5, 6, 7, 8, 9, 10, 11] from rfl]
  simp [List.flatMap_cons, List.flatMap_nil, monthLength, hy]

/-- The date iteration never repeats a date. -/
theorem yearDates_nodup (y : ℕ) : (yearDates y).Nodup := by
  unfold yearDates
  rw [List.nodup_flatMap]
  constructor
  · intro mi _
    refine (List.nodup_range _).map ?_
    intro a b hab
    simpa using hab
  · refine (List.pairwise_lt_range 12).imp ?_
    intro a b hab x hxa hxb
    simp only [List.mem_map] at hxa hxb
    obtain ⟨da, _, rfl⟩ := hxa
    obtain ⟨db, _, hx⟩ := hxb
    have hfst : b + 1 = a + 1 := congrArg Prod.fst hx
    omega

/-- Every iterated date is a valid (month, day) pair of the year. -/
theorem yearDates_mem (y : ℕ) : ∀ md ∈ yearDates y,
    1 ≤ md.1 ∧ md.1 ≤ 12 ∧ 1 ≤ md.2 ∧ md.2 ≤ monthLength y md.1 := by
  intro md hmd
  unfold yearDates at hmd
  simp only [List.mem_flatMap, List.mem_map, List.mem_range] at hmd
  obtain ⟨mi, hmi, di, hdi, rfl⟩ := hmd
  exact ⟨Nat.le_add_left 1 mi, hmi, Nat.le_add_left 1 di, hdi⟩

/-- C7: for every leap year, the year view emits exactly 366 cells, the
cell dates are pairwise distinct valid dates of that year, and every cell
sits at column = the ISO week number of its date and row = the weekday of
its date (0 = Monday ... 6 = Sunday). -/
theorem year_calendar_leap (ex : ℕ × ℕ × ℕ → Bool) (y : ℕ) (hy : isLeap y = true) :
    (create_year_calendar ex y).length = 366 ∧
    ((create_year_calendar ex y).map CalCell.date).Nodup ∧
    ∀ c ∈ create_year_calendar ex y,
      c.date.1 = y ∧
      1 ≤ c.date.2.1 ∧ c.date.2.1 ≤ 12 ∧ 1 ≤ c.date.2.2 ∧
      c.date.2.2 ≤ monthLength y c.date.2.1 ∧
      c.x = isoWeekNum c.date.1 c.date.2.1 c.date.2.2 ∧
      c.y = (pyWeekday c.date.1 c.date.2.1 c.date.2.2 : ℤ) := by
  refine ⟨?_, ?_, ?_⟩
  · unfold create_year_calendar
    rw [List.length_map, yearDates_length y hy]
  · unfold create_year_calendar
    rw [List.map_map]
    refine List.Nodup.map ?_ (yearDates_nodup y)
    intro a b hab
    simp only [Function.comp_apply] at hab
    have h1 : a.1 = b.1 := congrArg (fun p : ℕ × ℕ × ℕ => p.2.1) hab
    have h2 : a.2 = b.2 := congrArg (fun p : ℕ × ℕ × ℕ => p.2.2) hab
    exact Prod.ext h1 h2
  · intro c hc
    unfold create_year_calendar at hc
    simp only [List.mem_map] at hc
    obtain ⟨md, hmd, rfl⟩ := hc
    have hv := yearDates_mem y md hmd
    exact ⟨rfl, hv.1, hv.2.1, hv.2.2.1, hv.2.2.2, rfl, rfl⟩

/-- Witness for year_calendar_leap at the leap year 2024. -/
theorem year_calendar_leap_witness :
    isLeap 2024 = true ∧ (create_year_calendar (fun _ => false) 2024).length = 366 :=
  ⟨rfl, (year_calendar_leap (fun _ => false) 2024 rfl).1⟩

/-- Looking up a key other than k is unaffected by appending (k, v). -/
theorem entItem_append_single (r : Row) (k : String) (v : PyVal) (k' : String)
    (h : k' ≠ k) : entItem (r ++ [(k, v)]) k' = entItem r k' := by
  induction r with
  | nil => simp [entItem, Ne.symm h]
  | cons p rest ih =>
    obtain ⟨a, b⟩ := p
    by_cases hp : a = k' <;> simp [entItem, hp, ih]

/-- Looking up a key other than k is unaffected by overwriting k. -/
theorem entItem_map_set (r : Row) (k : String) (v : PyVal) (k' : String)
    (h : k' ≠ k) :
    entItem (r.map (fun p => if p.1 = k then (k, v) else p)) k' = entItem r k' := by
  induction r with
  | nil => rfl
  | cons p rest ih =>
    obtain ⟨a, b⟩ := p
    rw [List.map_cons]
    by_cases hak : a = k
    · have hh : (if (a, b).1 = k then (k, v) else (a, b)) = (k, v) := if_pos hak
      rw [hh]
      simp only [entItem]
      rw [if_neg (Ne.symm h), if_neg (show ¬a = k' from by rw [hak]; exact Ne.symm h), ih]
    · have hh : (if (a, b).1 = k then (k, v) else (a, b)) = (a, b) := if_neg hak
      rw [hh]
      simp only [entItem]
      by_cases hak' : a = k'
      · rw [if_pos hak', if_pos hak']
      · rw [if_neg hak', if_neg hak', ih]

/-- setField does not change other keys. -/
theorem entItem_setField_ne (r : Row) (k : String) (v : PyVal) (k' : String)
    (h : k' ≠ k) : entItem (setField r k v) k' = entItem r k' := by
  unfold setField
  split
  · exact entItem_map_set r k v k' h
  · exact entItem_append_single r k v k' h

/-- Assigning a column other than "date" keeps the row date. -/
theorem rowDate_setField_ne (r : Row) (k : String) (v : PyVal)
    (h : k ≠ "date") : rowDate (setField r k v) = rowDate r := by
  unfold rowDate entGetD
  rw [entItem_setField_ne r k v "date" (Ne.symm h)]

/-- An updates dict that avoids the date column keeps the row date. -/
theorem rowDate_applyUpdates (ups : List (String × PyVal)) (r : Row)
    (h : ∀ p ∈ ups, p.1 ≠ "date") :
    rowDate (applyUpdates r ups) = rowDate r := by
  induction ups generalizing r with
  | nil => rfl
  | cons kv rest ih =>
    unfold applyUpdates
    rw [List.foldl_cons]
    have h1 := ih (setField r kv.1 kv.2) (fun p hp => h p (List.mem_cons_of_mem kv hp))
    unfold applyUpdates at h1
    rw [h1, rowDate_setField_ne r kv.1 kv.2 (h kv (List.mem_cons_self kv rest))]

/-- The updated row keeps its date. -/
theorem rowDate_updatedRow (r : Row) (day : String) (ups : List (String × PyVal))
    (h : ∀ p ∈ ups, p.1 ≠ "date") :
    rowDate (updatedRow r day ups) = rowDate r := by
  unfold updatedRow
  rw [rowDate_setField_ne _ _ _ (by decide), rowDate_applyUpdates ups r h]

/-- countDate unfolds one row at a time. -/
theorem countDate_cons (r : Row) (rest : List Row) (d : String) :
    countDate (r :: rest) d = (if rowDate r = .str d then 1 else 0) + countDate rest d := by
  unfold countDate
  by_cases h : rowDate r = .str d <;> simp [List.filter_cons, h, Nat.add_comm]

/-- updateFirst does not change the number of rows. -/
theorem length_updateFirst (day : String) (ups : List (String × PyVal))
    (table : List Row) : (updateFirst day ups table).length = table.length := by
  induction table with
  | nil => rfl
  | cons r rest ih =>
    unfold updateFirst
    split <;> simp [ih]

/-- updateFirst preserves every per-date row count. -/
theorem countDate_updateFirst (table : List Row) (day : String)
    (ups : List (String × PyVal)) (d : String) (h : ∀ p ∈ ups, p.1 ≠ "date") :
    countDate (updateFirst day ups table) d = countDate table d := by
  induction table with
  | nil => rfl
  | cons r rest ih =>
    unfold updateFirst
    by_cases hr : rowDate r = .str day
    · rw [if_pos hr, countDate_cons, countDate_cons, rowDate_updatedRow r day ups h]
    · rw [if_neg hr, countDate_cons, countDate_cons, ih]

/-- countDate distributes over append. -/
theorem countDate_append (t1 t2 : List Row) (d : String) :
    countDate (t1 ++ t2) d = countDate t1 d + countDate t2 d := by
  unfold countDate
  rw [List.filter_append, List.length_append]

/-- The freshly appended row carries the saved date when the updates
dict avoids the date column. -/
theorem rowDate_newRow (day : String) (ups : List (String × PyVal))
    (h : ∀ p ∈ ups, p.1 ≠ "date") :
    rowDate (applyUpdates [("date", .str day), ("timestamp", .str day)] ups) = .str day := by
  rw [rowDate_applyUpdates ups _ h]
  rfl

/-- When no row matches the date, the per-date count is zero. -/
theorem countDate_eq_zero_of_not_any (table : List Row) (day : String)
    (h : table.any (fun r => rowDate r = .str day) = false) :
    countDate table day = 0 := by
  induction table with
  | nil => rfl
  | cons r rest ih =>
    rw [List.any_cons, Bool.or_eq_false_iff] at h
    rw [countDate_cons, if_neg (by simpa using h.1), ih h.2]

/-- Rows with no matching date pass through the update map unchanged. -/
theorem map_update_of_no_match (day : String) (ups : List (String × PyVal))
    (rest : List Row) (h0 : countDate rest day = 0) :
    rest.map (fun r => if rowDate r = .str day then updatedRow r day ups else r) = rest := by
  induction rest with
  | nil => rfl
  | cons r rest ih =>
    rw [countDate_cons] at h0
    have hr : ¬(rowDate r = .str day) := by
      intro hc
      rw [if_pos hc] at h0
      omega
    rw [List.map_cons, if_neg hr, ih (by omega)]

/-- With at most one matching row, updating the first match is the same
as updating every match: the one matching row changes, all others stay. -/
theorem updateFirst_eq_map (table : List Row) (day : String)
    (ups : List (String × PyVal)) (hinv : countDate table day ≤ 1) :
    updateFirst day ups table =
      table.map (fun r => if rowDate r = .str day then updatedRow r day ups else r) := by
  induction table with
  | nil => rfl
  | cons r rest ih =>
    rw [countDate_cons] at hinv
    unfold updateFirst
    by_cases hr : rowDate r = .str day
    · rw [if_pos hr, List.map_cons, if_pos hr]
      rw [if_pos hr] at hinv
      rw [map_update_of_no_match day ups rest (by omega)]
    · rw [if_neg hr, List.map_cons, if_neg hr, ih (by rw [if_neg hr] at hinv; omega)]

/-- C8 (amended): provided the updates dict does not assign the reserved
date column, upsert_for_date behaves as claimed: saving for a present
date updates the (unique) matching row in place, leaves every other row
unchanged and adds no row; saving for an absent date appends exactly one
row carrying that date; and the at-most-one-row-per-date invariant is
preserved. -/
theorem upsert_for_date_invariant (table : List Row) (day : String)
    (ups : List (String × PyVal))
    (hinv : ∀ d, countDate table d ≤ 1)
    (hups : ∀ p ∈ ups, p.1 ≠ "date") :
    (table.any (fun r => rowDate r = .str day) = true →
      (upsert_for_date table day ups).length = table.length ∧
      upsert_for_date table day ups =
        table.map (fun r => if rowDate r = .str day then updatedRow r day ups else r)) ∧
    (table.any (fun r => rowDate r = .str day) = false →
      (upsert_for_date table day ups).length = table.length + 1 ∧
      countDate (upsert_for_date table day ups) day = 1) ∧
    (∀ d, countDate (upsert_for_date table day ups) d ≤ 1) := by
  refine ⟨?_, ?_, ?_⟩
  · intro hany
    unfold upsert_for_date
    rw [if_pos hany]
    exact ⟨length_updateFirst day ups table, updateFirst_eq_map table day ups (hinv day)⟩
  · intro hany
    unfold upsert_for_date
    rw [if_neg (by simp [hany])]
    refine ⟨by simp, ?_⟩
    rw [countDate_append, countDate_eq_zero_of_not_any table day hany, countDate_cons,
      if_pos (rowDate_newRow day ups hups)]
    rfl
  · intro d
    unfold upsert_for_date
    by_cases hany : table.any (fun r => rowDate r = .str day) = true
    · rw [if_pos hany, countDate_updateFirst table day ups d hups]
      exact hinv d
    · rw [if_neg hany]
      have hanyf : table.any (fun r => rowDate r = .str day) = false := by
        simpa using hany
      rw [countDate_append, countDate_cons]
      have h0 : countDate ([] : List Row) d = 0 := rfl
      by_cases hd : d = day
      · subst hd
        rw [countDate_eq_zero_of_not_any table d hanyf,
          if_pos (rowDate_newRow d ups hups), h0]
      · rw [if_neg (by
          rw [rowDate_newRow day ups hups]
          simp [Ne.symm hd]), h0]
        have hle := hinv d
        omega

/-- C8 counterexample: on a table holding one row per date, saving for
2024-01-01 with an updates dict that assigns the date column rewrites the
matched row to date 2024-01-02, leaving two rows with that date — the
invariant is not preserved for arbitrary updates dicts. -/
theorem upsert_for_date_cex :
    countDate [[("date", PyVal.str "2024-01-01")], [("date", PyVal.str "2024-01-02")]]
        "2024-01-01" = 1 ∧
    countDate [[("date", PyVal.str "2024-01-01")], [("date", PyVal.str "2024-01-02")]]
        "2024-01-02" = 1 ∧
    countDate (upsert_for_date
        [[("date", PyVal.str "2024-01-01")], [("date", PyVal.str "2024-01-02")]]
        "2024-01-01" [("date", PyVal.str "2024-01-02")]) "2024-01-02" = 2 := by
  decide

/-- Witness for upsert_for_date_invariant: appending to a one-row table. -/
theorem upsert_for_date_invariant_witness :
    (upsert_for_date [[("date", PyVal.str "2024-01-01")]] "2024-01-02"
        [("gym", PyVal.bool true)]).length = 2 ∧
    countDate (upsert_for_date [[("date", PyVal.str "2024-01-01")]] "2024-01-02"
        [("gym", PyVal.bool true)]) "2024-01-02" = 1 := by
  have h := (upsert_for_date_invariant [[("date", PyVal.str "2024-01-01")]] "2024-01-02"
    [("gym", PyVal.bool true)]
    (by
      intro d
      rw [countDate_cons]
      split <;> simp [countDate])
    (by
      intro p hp
      rw [List.mem_singleton] at hp
      subst hp
      decide)).2.1 (by decide)
  exact ⟨h.1, h.2⟩

end Wellness

